import Mathlib

/-!
Shallow embedding of `source/gNanoVDB/gvdb_export_nanovdb.cpp` (the GVDB to
NanoVDB exporter) and theorems about its root builder, layout calculator and
orchestrator.

Modelling conventions:
* C `int` coordinates are `Int`; quantities that the C code stores in
  unsigned 64-bit fields are `Nat` reduced modulo `2 ^ 64` at the points where
  the C code performs the conversion.
* Finite IEEE-754 single-precision values are modelled as rationals.  The
  exporter only compares and copies channel values (`std::min` / `std::max`
  and field assignment); on finite floats these operations agree exactly with
  the rational order, so no rounding is involved.  `FLT_MAX` and
  `std::numeric_limits<float>::min()` are mapped to their exact rational
  values.
* CUDA plumbing (contexts, kernel launches, copies between host and device
  buffers) is not modelled: the level-2 node records that the GPU deposits in
  the output buffer are taken as the input list `node2s`, and the fields the
  host writes are fields of explicit result records.
* C `assert` statements compile to nothing in release builds; the embedded
  functions follow the release semantics, and each assert condition is also
  exposed as a named proposition so that theorems can talk about it.
-/

namespace GvdbNanoVDB

/-- Signed 3-component integer coordinate, `nanovdb::Coord`.  Fields `x`, `y`,
`z` are the C `ijk[0]`, `ijk[1]`, `ijk[2]`. -/
structure Coord where
  x : Int
  y : Int
  z : Int
deriving DecidableEq, Repr

/-- Closed integer bounding box, `nanovdb::CoordBBox`, with componentwise
minimum and maximum corners. -/
structure CoordBBox where
  lo : Coord
  hi : Coord
deriving DecidableEq, Repr

/-- Modelled from the spec: the `nanovdb::CoordBBox` default constructor (the
NanoVDB header is not part of the sources) initializes the box to the empty
box, with the minimum corner at `Coord::max()` (every component `INT_MAX`) and
the maximum corner at `Coord::min()` (every component `INT_MIN`), matching the
requirement of the specification that the index-space bounding box start empty. -/
def CoordBBox.empty : CoordBBox :=
  { lo := ⟨2 ^ 31 - 1, 2 ^ 31 - 1, 2 ^ 31 - 1⟩
    hi := ⟨-2 ^ 31, -2 ^ 31, -2 ^ 31⟩ }

/-- Arithmetic right shift of a C `int`: `x >> n` on a machine with two-complement integers is floor division by `2 ^ n`. -/
def sar (x : Int) (n : Nat) : Int :=
  Int.fdiv x (2 ^ n)

/-- Conversion of a signed value to `uint64_t`: reduction modulo `2 ^ 64`
(negative values are sign-extended and wrapped). -/
def toU64 (x : Int) : Nat :=
  (x % (2 ^ 64 : Int)).toNat

/-- Key computation from `ProcessGridExtents` (the inlined reimplementation of
`RootData::CoordToKey`):
`uint64_t(ijk[2] >> T) | (uint64_t(ijk[1] >> T) << 21) | (uint64_t(ijk[0] >> T) << 42)`
with every intermediate held in `uint64_t`. -/
def coordToKey (ijk : Coord) (totalLog2Dim : Nat) : Nat :=
  toU64 (sar ijk.z totalLog2Dim) |||
    (toU64 (sar ijk.y totalLog2Dim) <<< 21) % 2 ^ 64 |||
    (toU64 (sar ijk.x totalLog2Dim) <<< 42) % 2 ^ 64

/-- Condition of the `assert(32 - totalLog2Dim <= 21)` in
`ProcessGridExtents` (the restriction inherited from
`RootData::CoordToKey`). -/
def keyOverflowAssert (totalLog2Dim : Nat) : Prop :=
  (32 : Int) - totalLog2Dim ≤ 21

instance (n : Nat) : Decidable (keyOverflowAssert n) := by
  unfold keyOverflowAssert; infer_instance

/-- GVDB channel type tag (a C `uchar`).  `tFloat`, `tFloat3` and `tInt` are
`T_FLOAT`, `T_FLOAT3` and `T_INT`; every other code is carried by `other`. -/
inductive GType where
  | tFloat
  | tFloat3
  | tInt
  | other (code : Nat)
deriving DecidableEq, Repr

/-- Whether the channel type is one of the three supported by the exporter
(the `switch` in `ExportToNanoVDB` that rejects everything else). -/
def GType.supported : GType → Bool
  | .tFloat => true
  | .tFloat3 => true
  | .tInt => true
  | .other _ => false

/-- `TypeTableIndex`: maps a supported gvdbType to a row index of the size and
function tables.  For an unrecognized type the C function asserts and returns
0; the release-build fallback value 0 is used here. -/
def TypeTableIndex : GType → Nat
  | .tFloat => 0
  | .tFloat3 => 1
  | .tInt => 2
  | .other _ => 0

/-- Value carried by a channel of each type: `float` as an exact rational,
`Vec3f` as a triple of rationals, `int` as a mathematical integer (the
exporter never does arithmetic on `int` values, so no wrapping occurs), and a
placeholder for unsupported types (never reached past validation). -/
@[reducible] def ValueOf : GType → Type
  | .tFloat => ℚ
  | .tFloat3 => ℚ × ℚ × ℚ
  | .tInt => Int
  | .other _ => Unit

/-- Exact rational value of `FLT_MAX` = `std::numeric_limits<float>::max()`,
the largest finite IEEE single value, `(2 - 2 ^ (-23)) * 2 ^ 127`. -/
def FLT_MAX_Q : ℚ := 2 ^ 128 - 2 ^ 104

/-- Exact rational value of `std::numeric_limits<float>::min()`: the smallest
positive normal IEEE single value, `2 ^ (-126)`.  Note that this is a tiny
positive number, not the most negative float. -/
def FLT_MIN_Q : ℚ := 1 / 2 ^ 126

/-- `ExportToNanoVDB_MaximumValue<T>()`: `std::numeric_limits<T>::max()` for
scalars, and the explicit `{FLT_MAX, FLT_MAX, FLT_MAX}` specialization for
`Vec3f`.  For `int` (32-bit) this is `2 ^ 31 - 1`. -/
def ExportToNanoVDB_MaximumValue : (t : GType) → ValueOf t
  | .tFloat => FLT_MAX_Q
  | .tFloat3 => (FLT_MAX_Q, FLT_MAX_Q, FLT_MAX_Q)
  | .tInt => (2 ^ 31 - 1 : Int)
  | .other _ => ()

/-- `ExportToNanoVDB_MinimumValue<T>()`: `std::numeric_limits<T>::min()` for
scalars, and the explicit `{-FLT_MAX, -FLT_MAX, -FLT_MAX}` specialization for
`Vec3f`.  For `float`, `numeric_limits<float>::min()` is the smallest
positive normal, `FLT_MIN_Q`, not a negative number; for `int` it is
`-2 ^ 31`. -/
def ExportToNanoVDB_MinimumValue : (t : GType) → ValueOf t
  | .tFloat => FLT_MIN_Q
  | .tFloat3 => (-FLT_MAX_Q, -FLT_MAX_Q, -FLT_MAX_Q)
  | .tInt => (-2 ^ 31 : Int)
  | .other _ => ()

/-- Modelled from the spec: `ExportToNanoVDB_Min` is declared in the exporter
header, which is not among the sources.  Per the Type
Registry of the specification, it is the pairwise minimum, componentwise for `Vec3f`. -/
def ExportToNanoVDB_Min : (t : GType) → ValueOf t → ValueOf t → ValueOf t
  | .tFloat => fun a b : ℚ => min a b
  | .tFloat3 => fun a b : ℚ × ℚ × ℚ => (min a.1 b.1, min a.2.1 b.2.1, min a.2.2 b.2.2)
  | .tInt => fun a b : Int => min a b
  | .other _ => fun a _ => a

/-- Modelled from the spec: `ExportToNanoVDB_Max` is declared in the exporter
header, which is not among the sources.  Per the Type
Registry of the specification, it is the pairwise maximum, componentwise for `Vec3f`. -/
def ExportToNanoVDB_Max : (t : GType) → ValueOf t → ValueOf t → ValueOf t
  | .tFloat => fun a b : ℚ => max a b
  | .tFloat3 => fun a b : ℚ × ℚ × ℚ => (max a.1 b.1, max a.2.1 b.2.1, max a.2.2 b.2.2)
  | .tInt => fun a b : Int => max a b
  | .other _ => fun a _ => a

/-- Data that `GetNode2Range` reads out of one finished level-2 node resident
in the output buffer: its bounding box (whose minimum corner is the node
origin) and its value minimum and maximum (the `NodeRangeData` record). -/
structure Node2 (t : GType) where
  aabbMin : Coord
  aabbMax : Coord
  valueMin : ValueOf t
  valueMax : ValueOf t

/-- Root tile as written by `ProcessGridExtents`: the 64-bit spatial key and
the `childID` index of the referenced level-2 node. -/
structure Tile where
  key : Nat
  childID : Nat
deriving DecidableEq, Repr

/-- Comparison used to sort the tile array: the `std::sort` comparator
`a.key < b.key` sorts into ascending key order, which is specified (up to the
unspecified order of equal keys) by sortedness under `a.key ≤ b.key` together
with being a permutation of the input. -/
def tileLE (a b : Tile) : Prop := a.key ≤ b.key

instance : DecidableRel tileLE := fun a b => Nat.decLe a.key b.key

instance : IsTotal Tile tileLE := ⟨fun a b => Nat.le_total a.key b.key⟩

instance : IsTrans Tile tileLE := ⟨fun _ _ _ h h2 => Nat.le_trans h h2⟩

/-- Fields of the root header (`RootData`) that `ProcessGridExtents` writes,
together with the sorted tile array and the zero-volume warning flag. -/
structure RootOut (t : GType) where
  mActiveVoxelCount : Nat
  mBackground : ValueOf t
  mTileCount : Nat
  tiles : List Tile
  mBBox : CoordBBox
  mMinimum : ValueOf t
  mMaximum : ValueOf t
  warnedZeroVolume : Bool

/-- Componentwise bounding-box expansion from the tile loop:
`indexAABB.min()[c] = std::min(indexAABB.min()[c], rangeData.aabb.min()[c])`
and likewise for the maximum corner. -/
def expandBBox (bb : CoordBBox) (nLo nHi : Coord) : CoordBBox :=
  { lo := ⟨min bb.lo.x nLo.x, min bb.lo.y nLo.y, min bb.lo.z nLo.z⟩
    hi := ⟨max bb.hi.x nHi.x, max bb.hi.y nHi.y, max bb.hi.z nHi.z⟩ }

/-- Tile array as first written, in linear order: the tile at index `t` gets
`key = coordToKey(node2s[t].aabb.min(), totalLog2Dim)` and `childID = t`. -/
def linearTiles (t : GType) (node2s : List (Node2 t)) (totalLog2Dim : Nat) :
    List Tile :=
  node2s.enum.map fun p => { key := coordToKey p.2.aabbMin totalLog2Dim, childID := p.1 }

/-- `ProcessGridExtents` (the Root Builder): writes the root header fields,
one tile per level-2 node, folds the index-space bounding box and the value
minimum and maximum over the level-2 nodes starting from the sentinels, sorts
the tile array in ascending key order, and tests the zero-volume warning
condition `indexAABB.min() == indexAABB.max()`.  The `node2Log2Dim` parameter
only selects the `GetNode2Range` instantiation in C (a field reader, the
identity here).  The world-space bounding box computation at the end of the C
function (an affine map applied to the 8 corners) is not needed by any claim
and is not modelled. -/
def ProcessGridExtents (t : GType) (node2s : List (Node2 t))
    (activeVoxelCount : Nat) (background : ValueOf t)
    (node2Log2Dim totalLog2Dim : Nat) : RootOut t :=
  let _ := node2Log2Dim
  let indexAABB := node2s.foldl (fun bb n => expandBBox bb n.aabbMin n.aabbMax)
    CoordBBox.empty
  { mActiveVoxelCount := activeVoxelCount
    mBackground := background
    mTileCount := node2s.length
    tiles := List.insertionSort tileLE (linearTiles t node2s totalLog2Dim)
    mBBox := indexAABB
    mMinimum := node2s.foldl (fun acc n => ExportToNanoVDB_Min t acc n.valueMin)
      (ExportToNanoVDB_MaximumValue t)
    mMaximum := node2s.foldl (fun acc n => ExportToNanoVDB_Max t acc n.valueMax)
      (ExportToNanoVDB_MinimumValue t)
    warnedZeroVolume := decide (indexAABB.lo = indexAABB.hi) }

/-- Condition of the assert in `DataTypeSizeLookup`: the guard
`log2Dim < 2 || log2Dim > 7` fires the assertion, so the assert holds exactly
when `2 <= log2Dim <= 7`. -/
def DataTypeSizeLookupAssert (log2Dim : Int) : Prop :=
  ¬(log2Dim < 2 ∨ log2Dim > 7)

instance (n : Int) : Decidable (DataTypeSizeLookupAssert n) := by
  unfold DataTypeSizeLookupAssert; infer_instance

/-- `DataTypeSizeLookup`: looks up `sizes[TypeTableIndex(gvdbType)][log2Dim - 2]`
in a 3-by-6 table.  When `log2Dim < 2 || log2Dim > 7` the C function asserts
and returns 0; the release-build return value 0 is used here.  The table is a
function argument, as in the C signature (the concrete tables hold `sizeof`
values of templated NanoVDB node types, fixed by the build). -/
def DataTypeSizeLookup (sizes : Nat → Nat → Nat) (gvdbType : GType)
    (log2Dim : Int) : Nat :=
  if log2Dim < 2 ∨ log2Dim > 7 then 0
  else sizes (TypeTableIndex gvdbType) (log2Dim - 2).toNat

/-- Record of the per-region and per-node byte sizes,
`struct NanoVDBTypeSizes`. -/
structure NanoVDBTypeSizes where
  grid : Nat
  tree : Nat
  root : Nat
  rootTile : Nat
  node2 : Nat
  node1 : Nat
  leaf : Nat
deriving DecidableEq, Repr

/-- Compile-time size environment: the `sizeof` values that `ComputeTypeSizes`
reads from the C++ type system — `sizeof(GridData)`, `sizeof(TreeData<3>)`,
`sizeof(RootData<...>)` and its `Tile` per value type (indexed by
`TypeTableIndex`), and the two autogenerated 3-by-6 tables `nodeSizes` and
`leafSizes` (indexed by row `TypeTableIndex` and column `log2Dim - 2`). -/
structure SizeEnv where
  gridSize : Nat
  treeSize : Nat
  rootSize : Nat → Nat
  rootTileSize : Nat → Nat
  nodeSizes : Nat → Nat → Nat
  leafSizes : Nat → Nat → Nat

/-- `ComputeTypeSizes`: fills a `NanoVDBTypeSizes` from the size environment.
The `switch` over the root type has no default case, so for an unsupported
type the zero-initialized `root` and `rootTile` fields stay 0. -/
def ComputeTypeSizes (env : SizeEnv) (gvdbType : GType)
    (brickLog2Dim node1Log2Dim node2Log2Dim : Int) : NanoVDBTypeSizes :=
  { grid := env.gridSize
    tree := env.treeSize
    root := match gvdbType with
      | .tFloat => env.rootSize 0
      | .tFloat3 => env.rootSize 1
      | .tInt => env.rootSize 2
      | .other _ => 0
    rootTile := match gvdbType with
      | .tFloat => env.rootTileSize 0
      | .tFloat3 => env.rootTileSize 1
      | .tInt => env.rootTileSize 2
      | .other _ => 0
    node2 := DataTypeSizeLookup env.nodeSizes gvdbType node2Log2Dim
    node1 := DataTypeSizeLookup env.nodeSizes gvdbType node1Log2Dim
    leaf := DataTypeSizeLookup env.leafSizes gvdbType brickLog2Dim }

/-- Size of the fixed-width grid-name field, `nanovdb::GridData::MaxNameSize`.
Modelled from the spec: the NanoVDB header is not among the sources; the
specification gives the typical value 256 bytes. -/
def MaxNameSize : Nat := 256

/-- Modelled from the spec: `ExportToNanoVDB_GetNumNodes` is declared in the
exporter header, which is not among the sources.  Per the specification it
fails (with the too-many-nodes error) exactly when the node count of a level
exceeds `2 ^ 31 - 1`, and otherwise yields the count. -/
def ExportToNanoVDB_GetNumNodes (count : Nat) : Bool :=
  decide (count ≤ 2 ^ 31 - 1)

/-- Error outcomes of `ExportToNanoVDB`.  The C function returns the single
value `GVDB_EXPORT_NANOVDB_NULL` for every failure and distinguishes the
causes by the `gprintf` message; the constructors here mirror those
messages. -/
inductive ExportError where
  | nullBackgroundPtr
  | nullOutTotalSize
  | brickLog2DimOutOfRange
  | node1Log2DimOutOfRange
  | node2Log2DimOutOfRange
  | typeUnsupported
  | tooManyNodes (level : Nat)
deriving DecidableEq, Repr

/-- Read-only view of the GVDB volume consumed by the exporter: the per-level
log2 dimensions (`gvdb.getLD`), the finished level-2 node records (deposited
by the GPU pass; their count is what `ExportToNanoVDB_GetNumNodes(gvdb, 2, _)`
reports), and the level-1 and leaf counts. -/
structure GvdbVolume (t : GType) where
  ld0 : Int
  ld1 : Int
  ld2 : Int
  node2s : List (Node2 t)
  numNode1s : Nat
  numLeaves : Nat

/-- Data a successful export hands back to the caller: the total byte size
written through `outTotalSize`, the exclusive prefix-sum offsets of the six
regions (7 entries, first 0, last the total size), the grid-name field of the
grid header, the tree-header node counts, and the root header with its tile
array. -/
structure ExportResult (t : GType) where
  totalSize : Nat
  dataOffsetsBytes : List Nat
  mGridName : Fin MaxNameSize → Nat
  treeCount : List Nat
  root : RootOut t

/-- Tail of `ExportToNanoVDB` past the validation phase: computes the region
sizes from `ComputeTypeSizes`, the exclusive prefix-sum offsets (of which the
last entry is the total size written through `outTotalSize`), the active voxel
count `numLeaves * gvdb.getVoxCnt(0)` held in `uint64_t` (per-leaf voxel count
`2 ^ (3 * ld0)`; modelled from the spec, `getVoxCnt` being GVDB library code
outside the sources), the `memcpy` of exactly `MaxNameSize` grid-name bytes,
the tree-header node counts, and the Root Builder output. -/
def exportOkResult (env : SizeEnv) (gvdbType : GType) (vol : GvdbVolume gvdbType)
    (background : ValueOf gvdbType) (gridName : Fin MaxNameSize → Nat) :
    ExportResult gvdbType :=
  let typeSizes := ComputeTypeSizes env gvdbType vol.ld0 vol.ld1 vol.ld2
  let dataSizes : List Nat :=
    [typeSizes.grid,
     typeSizes.tree,
     typeSizes.root + typeSizes.rootTile * vol.node2s.length,
     vol.node2s.length * typeSizes.node2,
     vol.numNode1s * typeSizes.node1,
     vol.numLeaves * typeSizes.leaf]
  let dataOffsetsBytes := List.scanl (fun a b => a + b) 0 dataSizes
  let activeVoxelCount := vol.numLeaves * 2 ^ (3 * vol.ld0.toNat) % 2 ^ 64
  let totalLog2Dim := (vol.ld2 + vol.ld1 + vol.ld0).toNat
  { totalSize := dataOffsetsBytes.getLastD 0
    dataOffsetsBytes := dataOffsetsBytes
    mGridName := gridName
    treeCount := [vol.numLeaves, vol.numNode1s, vol.node2s.length, 1]
    root := ProcessGridExtents gvdbType vol.node2s activeVoxelCount
      background vol.ld2.toNat totalLog2Dim }

/-- `ExportToNanoVDB`: the orchestrator.  Validates arguments in source
order (null background pointer, null size output, the three log2dims against
[1,8], the channel type, the three node counts), computes the region sizes
and their exclusive prefix sum, and — the GPU node fillers being outside the
model — runs the Root Builder over the level-2 records and assembles the
result.  `backgroundPtr = none` and `outTotalSizePtrValid = false` model null
pointer arguments; every error return models `GVDB_EXPORT_NANOVDB_NULL`, with
no buffer handed to the caller.  Buffer allocation happens in C strictly
after the last validation (`cuMemAlloc` follows the `GetNumNodes` calls), so
an error result implies no allocation was made.  The active voxel count is
`numLeaves * gvdb.getVoxCnt(0)` held in `uint64_t`, `getVoxCnt(0)` being the
per-leaf voxel count `2 ^ (3 * ld0)` (modelled from the spec: `getVoxCnt` is
GVDB library code outside the sources).  The grid-name write is
`memcpy(gridData->mGridName, gridName, MaxNameSize)`: a verbatim copy of
exactly `MaxNameSize` bytes from the array given by the caller. -/
def ExportToNanoVDB (env : SizeEnv) (gvdbType : GType) (vol : GvdbVolume gvdbType)
    (backgroundPtr : Option (ValueOf gvdbType)) (gridName : Fin MaxNameSize → Nat)
    (outTotalSizePtrValid : Bool) : Except ExportError (ExportResult gvdbType) :=
  match backgroundPtr with
  | none => .error .nullBackgroundPtr
  | some background =>
    if outTotalSizePtrValid = false then .error .nullOutTotalSize
    else if vol.ld0 < 1 ∨ vol.ld0 > 8 then .error .brickLog2DimOutOfRange
    else if vol.ld1 < 1 ∨ vol.ld1 > 8 then .error .node1Log2DimOutOfRange
    else if vol.ld2 < 1 ∨ vol.ld2 > 8 then .error .node2Log2DimOutOfRange
    else if gvdbType.supported = false then .error .typeUnsupported
    else if ExportToNanoVDB_GetNumNodes vol.node2s.length = false then
      .error (.tooManyNodes 2)
    else if ExportToNanoVDB_GetNumNodes vol.numNode1s = false then
      .error (.tooManyNodes 1)
    else if ExportToNanoVDB_GetNumNodes vol.numLeaves = false then
      .error (.tooManyNodes 0)
    else
      .ok (exportOkResult env gvdbType vol background gridName)

/-! Concrete sample inputs used by witnesses and counterexamples. -/

/-- Sample size environment: arbitrary concrete stand-ins for the `sizeof`
values of the build (all table entries nonzero, as real node sizes are). -/
def sampleEnv : SizeEnv :=
  { gridSize := 672
    treeSize := 64
    rootSize := fun i => 64 + 16 * i
    rootTileSize := fun i => 32 + i
    nodeSizes := fun i j => 1000 + 100 * i + j
    leafSizes := fun i j => 2000 + 100 * i + j }

/-- Grid-name buffer of all zero bytes. -/
def name0 : Fin MaxNameSize → Nat := fun _ => 0

/-- Grid-name buffer holding the one-character C string "A" (byte 65, then the
terminating 0) followed by a stray nonzero byte 66 at index 2, as a caller may
leave uninitialized storage after the terminator. -/
def nameAB : Fin MaxNameSize → Nat := fun i =>
  if i.val = 0 then 65 else if i.val = 2 then 66 else 0

/-- Level-2 node at origin `(0, 0, -512)` (aligned to the 512-voxel level-2
extent of a `(3,3,3)` tree). -/
def nodeA : Node2 .tInt :=
  { aabbMin := ⟨0, 0, -512⟩, aabbMax := ⟨511, 511, -1⟩, valueMin := 0, valueMax := 1 }

/-- Level-2 node at origin `(512, 512, -512)`, distinct from the origin of `nodeA`
(and likewise aligned). -/
def nodeB : Node2 .tInt :=
  { aabbMin := ⟨512, 512, -512⟩, aabbMax := ⟨1023, 1023, -1⟩, valueMin := 0, valueMax := 2 }

/-- Two-node I32 volume whose level-2 origins are distinct but whose root keys
collide (sign extension makes both keys all-ones). -/
def volAB : GvdbVolume .tInt :=
  { ld0 := 3, ld1 := 3, ld2 := 3, node2s := [nodeA, nodeB], numNode1s := 2, numLeaves := 2 }

/-- Level-2 node at origin `(0, 0, 0)`. -/
def nodeC : Node2 .tInt :=
  { aabbMin := ⟨0, 0, 0⟩, aabbMax := ⟨511, 511, 511⟩, valueMin := -5, valueMax := 7 }

/-- Level-2 node at origin `(512, 0, 0)`. -/
def nodeD : Node2 .tInt :=
  { aabbMin := ⟨512, 0, 0⟩, aabbMax := ⟨1023, 511, 511⟩, valueMin := 2, valueMax := 9 }

/-- Two-node I32 volume (given to the builder in descending key order) whose
keys are distinct: 2 ^ 42 and 0. -/
def volCD : GvdbVolume .tInt :=
  { ld0 := 3, ld1 := 3, ld2 := 3, node2s := [nodeD, nodeC], numNode1s := 2, numLeaves := 2 }

/-- Empty I32 volume: zero nodes at every level. -/
def volEmpty : GvdbVolume .tInt :=
  { ld0 := 3, ld1 := 3, ld2 := 3, node2s := [], numNode1s := 0, numLeaves := 0 }

/-- Empty F32 volume: zero nodes at every level. -/
def volEmptyF : GvdbVolume .tFloat :=
  { ld0 := 3, ld1 := 3, ld2 := 3, node2s := [], numNode1s := 0, numLeaves := 0 }

/-- F32 volume with one level-2 node whose values are all `-2.0`. -/
def volNegF : GvdbVolume .tFloat :=
  { ld0 := 3, ld1 := 3, ld2 := 3
    node2s := [{ aabbMin := ⟨0, 0, 0⟩, aabbMax := ⟨511, 511, 511⟩,
                 valueMin := -2, valueMax := -2 }]
    numNode1s := 1, numLeaves := 1 }

/-- F32 volume with brick log2dim 1: accepted by the [1,8]
validation of the orchestrator, rejected by the [2,7] assertion inside `DataTypeSizeLookup`. -/
def volLd1 : GvdbVolume .tFloat :=
  { ld0 := 1, ld1 := 3, ld2 := 3, node2s := [], numNode1s := 0, numLeaves := 0 }

/-- F32 volume with brick log2dim 9: rejected by the [1,8] validation. -/
def volLd9 : GvdbVolume .tFloat :=
  { ld0 := 9, ld1 := 3, ld2 := 3, node2s := [], numNode1s := 0, numLeaves := 0 }

/-- I32 volume with log2dims `(3, 3, 4)`, so the summed log2dim is 10 and
`32 - 10 = 22 > 21`: the configuration the specification calls key
overflow. -/
def volT10 : GvdbVolume .tInt :=
  { ld0 := 3, ld1 := 3, ld2 := 4
    node2s := [{ aabbMin := ⟨0, 0, 0⟩, aabbMax := ⟨1023, 1023, 1023⟩,
                 valueMin := 0, valueMax := 1 }]
    numNode1s := 1, numLeaves := 1 }

/-! Helper lemmas about the orchestrator. -/

/-- Lemma: when every validation condition holds, `ExportToNanoVDB` reaches
the else branch and returns `exportOkResult`. -/
theorem export_eq_ok_of_valid (env : SizeEnv) (t : GType) (vol : GvdbVolume t)
    (b : ValueOf t) (gridName : Fin MaxNameSize → Nat)
    (h0 : ¬(vol.ld0 < 1 ∨ vol.ld0 > 8)) (h1 : ¬(vol.ld1 < 1 ∨ vol.ld1 > 8))
    (h2 : ¬(vol.ld2 < 1 ∨ vol.ld2 > 8)) (ht : t.supported = true)
    (hn2 : ExportToNanoVDB_GetNumNodes vol.node2s.length = true)
    (hn1 : ExportToNanoVDB_GetNumNodes vol.numNode1s = true)
    (hl : ExportToNanoVDB_GetNumNodes vol.numLeaves = true) :
    ExportToNanoVDB env t vol (some b) gridName true =
      .ok (exportOkResult env t vol b gridName) := by
  unfold ExportToNanoVDB
  dsimp only
  rw [if_neg (by simp), if_neg h0, if_neg h1, if_neg h2, if_neg (by simp [ht]),
    if_neg (by simp [hn2]), if_neg (by simp [hn1]), if_neg (by simp [hl])]

/-- Lemma: a successful `ExportToNanoVDB` implies that every validation
passed and that the result is `exportOkResult` on the supplied background. -/
theorem export_ok_inversion (env : SizeEnv) (t : GType) (vol : GvdbVolume t)
    (bg : Option (ValueOf t)) (gridName : Fin MaxNameSize → Nat)
    (outOk : Bool) (r : ExportResult t)
    (h : ExportToNanoVDB env t vol bg gridName outOk = .ok r) :
    ∃ b, bg = some b ∧ outOk = true ∧
      ¬(vol.ld0 < 1 ∨ vol.ld0 > 8) ∧ ¬(vol.ld1 < 1 ∨ vol.ld1 > 8) ∧
      ¬(vol.ld2 < 1 ∨ vol.ld2 > 8) ∧ t.supported = true ∧
      ExportToNanoVDB_GetNumNodes vol.node2s.length = true ∧
      ExportToNanoVDB_GetNumNodes vol.numNode1s = true ∧
      ExportToNanoVDB_GetNumNodes vol.numLeaves = true ∧
      r = exportOkResult env t vol b gridName := by
  match bg with
  | none => exact absurd h (by simp [ExportToNanoVDB])
  | some b =>
    refine ⟨b, rfl, ?_⟩
    unfold ExportToNanoVDB at h
    dsimp only at h
    by_cases ho : outOk = false
    · rw [if_pos ho] at h; exact absurd h (by simp)
    rw [if_neg ho] at h
    rw [Bool.not_eq_false] at ho
    by_cases c0 : vol.ld0 < 1 ∨ vol.ld0 > 8
    · rw [if_pos c0] at h; exact absurd h (by simp)
    rw [if_neg c0] at h
    by_cases c1 : vol.ld1 < 1 ∨ vol.ld1 > 8
    · rw [if_pos c1] at h; exact absurd h (by simp)
    rw [if_neg c1] at h
    by_cases c2 : vol.ld2 < 1 ∨ vol.ld2 > 8
    · rw [if_pos c2] at h; exact absurd h (by simp)
    rw [if_neg c2] at h
    by_cases ct : t.supported = false
    · rw [if_pos ct] at h; exact absurd h (by simp)
    rw [if_neg ct] at h
    rw [Bool.not_eq_false] at ct
    by_cases k2 : ExportToNanoVDB_GetNumNodes vol.node2s.length = false
    · rw [if_pos k2] at h; exact absurd h (by simp)
    rw [if_neg k2] at h
    rw [Bool.not_eq_false] at k2
    by_cases k1 : ExportToNanoVDB_GetNumNodes vol.numNode1s = false
    · rw [if_pos k1] at h; exact absurd h (by simp)
    rw [if_neg k1] at h
    rw [Bool.not_eq_false] at k1
    by_cases kl : ExportToNanoVDB_GetNumNodes vol.numLeaves = false
    · rw [if_pos kl] at h; exact absurd h (by simp)
    rw [if_neg kl] at h
    rw [Bool.not_eq_false] at kl
    cases h
    exact ⟨ho, c0, c1, c2, ct, k2, k1, kl, rfl⟩

/-- C1: for every emitted root tile, the tile references the level-2 node at
index `childID`, and its key is the encoding of the origin of that node (its
bounding-box minimum) right-shifted by the summed log2dim `T` and packed as
`(k >> T) | ((j >> T) << 21) | ((i >> T) << 42)`; this holds for every tile of
the final (sorted) array. -/
theorem C1_root_tile_key_formula (t : GType) (node2s : List (Node2 t))
    (avc : Nat) (bg : ValueOf t) (n2ld T : Nat) (tile : Tile)
    (h : tile ∈ (ProcessGridExtents t node2s avc bg n2ld T).tiles) :
    ∃ n, node2s[tile.childID]? = some n ∧ tile.key = coordToKey n.aabbMin T := by
  have h2 : tile ∈ linearTiles t node2s T :=
    (List.perm_insertionSort tileLE (linearTiles t node2s T)).mem_iff.mp h
  rw [linearTiles, List.mem_map] at h2
  obtain ⟨p, hp, rfl⟩ := h2
  exact ⟨p.2, List.mem_enum_iff_getElem?.mp hp, rfl⟩

/-- Witness for C1 at a concrete input: in the two-node volume `volCD` the
tile with key 0 references node index 1 (`nodeC`, origin `(0,0,0)`). -/
theorem C1_root_tile_key_formula_witness :
    ∃ n, volCD.node2s[(Tile.mk 0 1).childID]? = some n ∧
      (Tile.mk 0 1).key = coordToKey n.aabbMin 9 :=
  C1_root_tile_key_formula .tInt volCD.node2s 1024 0 3 9 (Tile.mk 0 1) (by decide)

/-- C2 counterexample: `volAB` has two level-2 nodes with distinct (and
aligned) origins, yet the exported root-tile keys are equal (both all-ones,
by sign extension of the negative shifted z coordinate), so adjacent keys are
not strictly ascending. -/
theorem C2_counterexample_equal_keys :
    nodeA.aabbMin ≠ nodeB.aabbMin ∧
    (ExportToNanoVDB sampleEnv .tInt volAB (some 0) name0 true).toOption.map
      (fun r => r.root.tiles.map Tile.key) = some [2 ^ 64 - 1, 2 ^ 64 - 1] ∧
    ¬ List.Sorted (fun a b => a < b) [(2 : Nat) ^ 64 - 1, 2 ^ 64 - 1] :=
  ⟨by decide, by decide, by decide⟩

/-- C2 (amended): after the Root Builder completes, the keys of the emitted
root-tile array are non-decreasing, and whenever the computed keys are
pairwise distinct the order is strictly ascending.  Distinct origins alone do
not guarantee distinct keys. -/
theorem C2_sorted_keys (t : GType) (node2s : List (Node2 t)) (avc : Nat)
    (bg : ValueOf t) (n2ld T : Nat) :
    List.Sorted (fun a b => a ≤ b)
      ((ProcessGridExtents t node2s avc bg n2ld T).tiles.map Tile.key) ∧
    (((ProcessGridExtents t node2s avc bg n2ld T).tiles.map Tile.key).Nodup →
      List.Sorted (fun a b => a < b)
        ((ProcessGridExtents t node2s avc bg n2ld T).tiles.map Tile.key)) := by
  have hs : List.Sorted tileLE (ProcessGridExtents t node2s avc bg n2ld T).tiles :=
    List.sorted_insertionSort tileLE (linearTiles t node2s T)
  have hk : List.Sorted (fun a b => a ≤ b)
      ((ProcessGridExtents t node2s avc bg n2ld T).tiles.map Tile.key) :=
    List.Pairwise.map Tile.key (fun a b h => h) hs
  exact ⟨hk, fun hnd => hk.lt_of_le hnd⟩

/-- Witness for C2 at a concrete input: the keys the builder emits for `volCD`
are pairwise distinct, and the array is strictly ascending. -/
theorem C2_sorted_keys_witness :
    List.Sorted (fun a b => a < b)
      ((ProcessGridExtents .tInt volCD.node2s 1024 0 3 9).tiles.map Tile.key) :=
  (C2_sorted_keys .tInt volCD.node2s 1024 0 3 9).2 (by decide)

/-- C3: the validation in the orchestrator admits log2dim 1 (its range check and
error message use [1,8]) and the export proceeds, but the assertion inside
`DataTypeSizeLookup` admits only [2,7], fires at log2dim 1, and the lookup yields 0
instead of a per-node byte size. -/
theorem C3_log2dim_range_mismatch :
    (ExportToNanoVDB sampleEnv .tFloat volLd1 (some 0) name0 true).toOption.isSome
      = true ∧
    DataTypeSizeLookup sampleEnv.leafSizes .tFloat 1 = 0 ∧
    ¬ DataTypeSizeLookupAssert 1 ∧
    ExportToNanoVDB sampleEnv .tFloat volLd9 (some 0) name0 true =
      .error .brickLog2DimOutOfRange :=
  ⟨by decide, by decide, by decide, rfl⟩

/-- C4: at the failing input `volNegF` (one F32 level-2 node whose maximum
value is -2.0), the maximum field of the root header is written as
`numeric_limits<float>::min() = 2 ^ (-126)`, a tiny positive number, because
the running maximum is initialized with it; the pairwise maximum of all node
maxima (what a fold seeded below every value computes) is -2. -/
theorem C4_float_max_sentinel_bug :
    (ExportToNanoVDB sampleEnv .tFloat volNegF (some 0) name0 true).toOption.map
      (fun r => r.root.mMaximum) = some FLT_MIN_Q ∧
    FLT_MIN_Q = 1 / 2 ^ 126 ∧
    ((1 : ℚ) / 2 ^ 126) ≠ (-2 : ℚ) ∧
    ExportToNanoVDB_Max .tFloat (-2) (-2) = -2 := by
  refine ⟨?_, rfl, by norm_num, by simp [ExportToNanoVDB_Max]⟩
  rw [export_eq_ok_of_valid sampleEnv .tFloat volNegF 0 name0 (by decide) (by decide)
    (by decide) rfl (by decide) (by decide) (by decide)]
  simp only [Except.toOption, Option.map, exportOkResult, ProcessGridExtents, volNegF,
    List.foldl, ExportToNanoVDB_Max, ExportToNanoVDB_MinimumValue]
  rw [max_eq_left (by norm_num [FLT_MIN_Q])]
/-- C5 counterexample: with log2dims `(3, 3, 4)` the summed log2dim is 10 and
`32 - 10 = 22 > 21`, yet the export succeeds — the condition is checked only
by a debug assertion, and no error reaches the caller. -/
theorem C5_counterexample_export_succeeds :
    (ExportToNanoVDB sampleEnv .tInt volT10 (some 0) name0 true).toOption.isSome
      = true ∧
    ¬ keyOverflowAssert ((volT10.ld2 + volT10.ld1 + volT10.ld0).toNat) :=
  ⟨by decide, by decide⟩

/-- C5 (amended): a violation of `32 - T <= 21` is caught only by the debug
assertion `assert(32 - totalLog2Dim <= 21)` inside the Root Builder; the
release export performs no such check, continues and returns a buffer, so no
key-overflow error is surfaced to the caller. -/
theorem C5_key_overflow_assert_only (env : SizeEnv) (t : GType)
    (vol : GvdbVolume t) (b : ValueOf t) (gridName : Fin MaxNameSize → Nat)
    (h0 : ¬(vol.ld0 < 1 ∨ vol.ld0 > 8)) (h1 : ¬(vol.ld1 < 1 ∨ vol.ld1 > 8))
    (h2 : ¬(vol.ld2 < 1 ∨ vol.ld2 > 8)) (ht : t.supported = true)
    (hn2 : ExportToNanoVDB_GetNumNodes vol.node2s.length = true)
    (hn1 : ExportToNanoVDB_GetNumNodes vol.numNode1s = true)
    (hl : ExportToNanoVDB_GetNumNodes vol.numLeaves = true)
    (_hko : ¬ keyOverflowAssert ((vol.ld2 + vol.ld1 + vol.ld0).toNat)) :
    ExportToNanoVDB env t vol (some b) gridName true =
      .ok (exportOkResult env t vol b gridName) :=
  export_eq_ok_of_valid env t vol b gridName h0 h1 h2 ht hn2 hn1 hl

/-- Witness for C5 at the concrete key-overflow input `volT10`. -/
theorem C5_key_overflow_assert_only_witness :
    ExportToNanoVDB sampleEnv .tInt volT10 (some 0) name0 true =
      .ok (exportOkResult sampleEnv .tInt volT10 0 name0) :=
  C5_key_overflow_assert_only sampleEnv .tInt volT10 0 name0 (by decide) (by decide)
    (by decide) rfl (by decide) (by decide) (by decide) (by decide)

/-- C6: each invalid-input class — null background pointer, null total-size
output pointer, a log2dim outside [1,8], an unsupported channel type — makes
the export fail with the corresponding error before any later stage runs (in
the C code all these returns precede the `cuMemAlloc` call), and no buffer is
returned: the result is an error value, never a partial `ExportResult`.  Each
conjunct carries the outcomes of the preceding checks, since the validations run in
source order. -/
theorem C6_validation_rejects_before_allocation (env : SizeEnv) (t : GType)
    (vol : GvdbVolume t) (bg : Option (ValueOf t))
    (gridName : Fin MaxNameSize → Nat) (outOk : Bool) :
    (bg = none →
      ExportToNanoVDB env t vol bg gridName outOk = .error .nullBackgroundPtr) ∧
    (bg ≠ none → outOk = false →
      ExportToNanoVDB env t vol bg gridName outOk = .error .nullOutTotalSize) ∧
    (bg ≠ none → outOk = true → (vol.ld0 < 1 ∨ vol.ld0 > 8) →
      ExportToNanoVDB env t vol bg gridName outOk = .error .brickLog2DimOutOfRange) ∧
    (bg ≠ none → outOk = true → ¬(vol.ld0 < 1 ∨ vol.ld0 > 8) →
      (vol.ld1 < 1 ∨ vol.ld1 > 8) →
      ExportToNanoVDB env t vol bg gridName outOk = .error .node1Log2DimOutOfRange) ∧
    (bg ≠ none → outOk = true → ¬(vol.ld0 < 1 ∨ vol.ld0 > 8) →
      ¬(vol.ld1 < 1 ∨ vol.ld1 > 8) → (vol.ld2 < 1 ∨ vol.ld2 > 8) →
      ExportToNanoVDB env t vol bg gridName outOk = .error .node2Log2DimOutOfRange) ∧
    (bg ≠ none → outOk = true → ¬(vol.ld0 < 1 ∨ vol.ld0 > 8) →
      ¬(vol.ld1 < 1 ∨ vol.ld1 > 8) → ¬(vol.ld2 < 1 ∨ vol.ld2 > 8) →
      t.supported = false →
      ExportToNanoVDB env t vol bg gridName outOk = .error .typeUnsupported) := by
  obtain - | b := bg
  · refine ⟨fun _ => rfl, ?_, ?_, ?_, ?_, ?_⟩ <;> exact fun h => absurd rfl h
  refine ⟨fun h => absurd h (by simp), ?_, ?_, ?_, ?_, ?_⟩
  · rintro - rfl
    rfl
  · rintro - rfl hc
    unfold ExportToNanoVDB
    dsimp only
    rw [if_neg (by simp), if_pos hc]
  · rintro - rfl hc0 hc
    unfold ExportToNanoVDB
    dsimp only
    rw [if_neg (by simp), if_neg hc0, if_pos hc]
  · rintro - rfl hc0 hc1 hc
    unfold ExportToNanoVDB
    dsimp only
    rw [if_neg (by simp), if_neg hc0, if_neg hc1, if_pos hc]
  · rintro - rfl hc0 hc1 hc2 hct
    unfold ExportToNanoVDB
    dsimp only
    rw [if_neg (by simp), if_neg hc0, if_neg hc1, if_neg hc2, if_pos hct]

/-- Witness for C6 at concrete inputs: a null background pointer is rejected
with the null-background error. -/
theorem C6_validation_rejects_before_allocation_witness :
    ExportToNanoVDB sampleEnv .tInt volEmpty none name0 true =
      .error .nullBackgroundPtr :=
  (C6_validation_rejects_before_allocation sampleEnv .tInt volEmpty none name0 true).1 rfl
/-- C7 counterexample: exporting the empty tree `volEmpty` succeeds with
total size grid + tree + root (672 + 64 + 96 here), an empty root bounding
box, active voxel count 0 — but `warnedZeroVolume = false`: the warning
condition `indexAABB.min() == indexAABB.max()` does not hold for the empty
box (its corners differ), so no warning is emitted, contrary to the claim. -/
theorem C7_counterexample_no_warning :
    (ExportToNanoVDB sampleEnv .tInt volEmpty (some 0) name0 true).toOption.map
      (fun r => (r.root.warnedZeroVolume, r.root.mActiveVoxelCount, r.root.mBBox,
        r.totalSize)) = some (false, 0, CoordBBox.empty, 832) :=
  by decide

/-- C7 (amended): exporting a tree with zero nodes at every level succeeds,
returns a buffer of exactly the grid + tree + root region sizes, leaves the
index-space bounding box of the root empty and the active voxel count 0; no
zero-volume warning is emitted, since the warning fires only when the
bounding-box corners coincide. -/
theorem C7_empty_tree_export (env : SizeEnv) (t : GType) (vol : GvdbVolume t)
    (b : ValueOf t) (gridName : Fin MaxNameSize → Nat)
    (h0 : ¬(vol.ld0 < 1 ∨ vol.ld0 > 8)) (h1 : ¬(vol.ld1 < 1 ∨ vol.ld1 > 8))
    (h2 : ¬(vol.ld2 < 1 ∨ vol.ld2 > 8)) (ht : t.supported = true)
    (hn2s : vol.node2s = []) (hn1v : vol.numNode1s = 0) (hlv : vol.numLeaves = 0) :
    ExportToNanoVDB env t vol (some b) gridName true =
      .ok (exportOkResult env t vol b gridName) ∧
    (exportOkResult env t vol b gridName).totalSize =
      env.gridSize + env.treeSize +
        (ComputeTypeSizes env t vol.ld0 vol.ld1 vol.ld2).root ∧
    (exportOkResult env t vol b gridName).root.mBBox = CoordBBox.empty ∧
    (exportOkResult env t vol b gridName).root.mActiveVoxelCount = 0 ∧
    (exportOkResult env t vol b gridName).root.warnedZeroVolume = false := by
  refine ⟨export_eq_ok_of_valid env t vol b gridName h0 h1 h2 ht
    (by rw [hn2s]; rfl) (by rw [hn1v]; rfl) (by rw [hlv]; rfl), ?_, ?_, ?_, ?_⟩
  · simp [exportOkResult, ComputeTypeSizes, hn2s, hn1v, hlv, List.scanl]
  · simp [exportOkResult, ProcessGridExtents, hn2s]
  · simp [exportOkResult, ProcessGridExtents, hlv]
  · simp [exportOkResult, ProcessGridExtents, hn2s]
    decide

/-- Witness for C7 at the concrete empty I32 volume. -/
theorem C7_empty_tree_export_witness :
    ExportToNanoVDB sampleEnv .tInt volEmpty (some 0) name0 true =
      .ok (exportOkResult sampleEnv .tInt volEmpty 0 name0) ∧
    (exportOkResult sampleEnv .tInt volEmpty 0 name0).totalSize =
      sampleEnv.gridSize + sampleEnv.treeSize +
        (ComputeTypeSizes sampleEnv .tInt volEmpty.ld0 volEmpty.ld1 volEmpty.ld2).root ∧
    (exportOkResult sampleEnv .tInt volEmpty 0 name0).root.mBBox = CoordBBox.empty ∧
    (exportOkResult sampleEnv .tInt volEmpty 0 name0).root.mActiveVoxelCount = 0 ∧
    (exportOkResult sampleEnv .tInt volEmpty 0 name0).root.warnedZeroVolume = false :=
  C7_empty_tree_export sampleEnv .tInt volEmpty 0 name0 (by decide) (by decide)
    (by decide) rfl rfl rfl rfl

/-- C8: for every successful export, the active voxel count stored in the
root header equals `numLeaves * 2 ^ (3 * leafLog2Dim)` — the multiplication
is performed in `uint64_t`, and the validated bounds (`numLeaves <= 2^31 - 1`
and `leafLog2Dim <= 8`) keep the product below `2 ^ 64`, so no wrapping
occurs. -/
theorem C8_active_voxel_count (env : SizeEnv) (t : GType) (vol : GvdbVolume t)
    (bg : Option (ValueOf t)) (gridName : Fin MaxNameSize → Nat) (outOk : Bool)
    (r : ExportResult t)
    (h : ExportToNanoVDB env t vol bg gridName outOk = .ok r) :
    r.root.mActiveVoxelCount = vol.numLeaves * 2 ^ (3 * vol.ld0.toNat) := by
  obtain ⟨b, -, -, h0, -, -, -, -, -, hl, rfl⟩ :=
    export_ok_inversion env t vol bg gridName outOk r h
  have hleaves : vol.numLeaves ≤ 2 ^ 31 - 1 :=
    of_decide_eq_true hl
  have hld : vol.ld0.toNat ≤ 8 :=
    Int.toNat_le.mpr (not_lt.mp (not_or.mp h0).2)
  have hprod : vol.numLeaves * 2 ^ (3 * vol.ld0.toNat) < 2 ^ 64 := by
    calc vol.numLeaves * 2 ^ (3 * vol.ld0.toNat)
        ≤ (2 ^ 31 - 1) * 2 ^ 24 := by
          refine Nat.mul_le_mul hleaves (Nat.pow_le_pow_right (by norm_num) ?_)
          omega
      _ < 2 ^ 64 := by norm_num
  show vol.numLeaves * 2 ^ (3 * vol.ld0.toNat) % 2 ^ 64 =
    vol.numLeaves * 2 ^ (3 * vol.ld0.toNat)
  exact Nat.mod_eq_of_lt hprod

/-- Witness for C8 at the concrete volume `volCD`: 2 leaves of 512 voxels
each give 1024 active voxels. -/
theorem C8_active_voxel_count_witness :
    (exportOkResult sampleEnv .tInt volCD 0 name0).root.mActiveVoxelCount =
      volCD.numLeaves * 2 ^ (3 * volCD.ld0.toNat) :=
  C8_active_voxel_count sampleEnv .tInt volCD (some 0) name0 true
    (exportOkResult sampleEnv .tInt volCD 0 name0)
    (export_eq_ok_of_valid sampleEnv .tInt volCD 0 name0 (by decide) (by decide)
      (by decide) rfl (by decide) (by decide) (by decide))

/-- C9 counterexample: the caller buffer `nameAB` holds the C string "A"
(terminator at index 1) with a stray byte 66 at index 2; the exported grid
name field of the exported grid header reproduces byte 66 at index 2 — the remainder of the
field beyond the name is copied verbatim, not zeroed. -/
theorem C9_counterexample_stray_byte :
    nameAB ⟨1, by decide⟩ = 0 ∧
    (ExportToNanoVDB sampleEnv .tInt volEmpty (some 0) nameAB true).toOption.map
      (fun r => r.mGridName ⟨2, by decide⟩) = some 66 ∧
    (66 : Nat) ≠ 0 :=
  ⟨by decide, by decide, by decide⟩

/-- C9 (amended): the name field of the grid header holds exactly `MaxNameSize`
bytes, copied verbatim from the `MaxNameSize`-byte buffer of the caller (so a
longer name is truncated to the field width, and export never fails because
of the name); bytes beyond the terminator of the name are whatever the caller
left in the buffer there, not forced to zero. -/
theorem C9_gridname_copied_verbatim (env : SizeEnv) (t : GType)
    (vol : GvdbVolume t) (bg : Option (ValueOf t))
    (gridName : Fin MaxNameSize → Nat) (outOk : Bool) (r : ExportResult t)
    (h : ExportToNanoVDB env t vol bg gridName outOk = .ok r)
    (i : Fin MaxNameSize) :
    r.mGridName i = gridName i := by
  obtain ⟨b, -, -, -, -, -, -, -, -, -, rfl⟩ :=
    export_ok_inversion env t vol bg gridName outOk r h
  rfl

/-- Witness for C9 at the concrete buffer `nameAB`. -/
theorem C9_gridname_copied_verbatim_witness :
    (exportOkResult sampleEnv .tInt volEmpty 0 nameAB).mGridName ⟨2, by decide⟩ =
      nameAB ⟨2, by decide⟩ :=
  C9_gridname_copied_verbatim sampleEnv .tInt volEmpty (some 0) nameAB true
    (exportOkResult sampleEnv .tInt volEmpty 0 nameAB)
    (export_eq_ok_of_valid sampleEnv .tInt volEmpty 0 nameAB (by decide) (by decide)
      (by decide) rfl (by decide) (by decide) (by decide)) ⟨2, by decide⟩

/-- C10: when the tree has zero level-2 nodes the value fold never runs, so
the minimum field of the root header is the maximum sentinel of the type and
its maximum field is the minimum sentinel; for F32 these are
`numeric_limits<float>::max() = FLT_MAX` and
`numeric_limits<float>::min() = 2 ^ (-126)` respectively. -/
theorem C10_empty_tree_sentinels (env : SizeEnv) (t : GType)
    (vol : GvdbVolume t) (b : ValueOf t) (gridName : Fin MaxNameSize → Nat)
    (h0 : ¬(vol.ld0 < 1 ∨ vol.ld0 > 8)) (h1 : ¬(vol.ld1 < 1 ∨ vol.ld1 > 8))
    (h2 : ¬(vol.ld2 < 1 ∨ vol.ld2 > 8)) (ht : t.supported = true)
    (hn1 : ExportToNanoVDB_GetNumNodes vol.numNode1s = true)
    (hl : ExportToNanoVDB_GetNumNodes vol.numLeaves = true)
    (hn2s : vol.node2s = []) :
    ExportToNanoVDB env t vol (some b) gridName true =
      .ok (exportOkResult env t vol b gridName) ∧
    (exportOkResult env t vol b gridName).root.mMinimum =
      ExportToNanoVDB_MaximumValue t ∧
    (exportOkResult env t vol b gridName).root.mMaximum =
      ExportToNanoVDB_MinimumValue t ∧
    ExportToNanoVDB_MaximumValue .tFloat = FLT_MAX_Q ∧
    ExportToNanoVDB_MinimumValue .tFloat = FLT_MIN_Q := by
  refine ⟨export_eq_ok_of_valid env t vol b gridName h0 h1 h2 ht
    (by rw [hn2s]; rfl) hn1 hl, ?_, ?_, rfl, rfl⟩
  · simp [exportOkResult, ProcessGridExtents, hn2s]
  · simp [exportOkResult, ProcessGridExtents, hn2s]

/-- Witness for C10 at the concrete empty F32 volume. -/
theorem C10_empty_tree_sentinels_witness :
    ExportToNanoVDB sampleEnv .tFloat volEmptyF (some 0) name0 true =
      .ok (exportOkResult sampleEnv .tFloat volEmptyF 0 name0) ∧
    (exportOkResult sampleEnv .tFloat volEmptyF 0 name0).root.mMinimum =
      ExportToNanoVDB_MaximumValue .tFloat ∧
    (exportOkResult sampleEnv .tFloat volEmptyF 0 name0).root.mMaximum =
      ExportToNanoVDB_MinimumValue .tFloat ∧
    ExportToNanoVDB_MaximumValue .tFloat = FLT_MAX_Q ∧
    ExportToNanoVDB_MinimumValue .tFloat = FLT_MIN_Q :=
  C10_empty_tree_sentinels sampleEnv .tFloat volEmptyF 0 name0 (by decide)
    (by decide) (by decide) rfl (by decide) (by decide) rfl
end GvdbNanoVDB
